import Mathlib

/-!
Verification of the campaign-reporting reconciliation pipeline
(`check_json.py` plus its prompt constants).

The development shallowly embeds the Python source: Python strings become
`List Char`, Python `difflib.SequenceMatcher` (with its default `autojunk`
heuristic) becomes the executable functions below, dictionaries become
association lists, the Bedrock completion service becomes an oracle
function, and the driver loop becomes explicit state passing.
-/

set_option maxRecDepth 100000

namespace CheckJson

abbrev Chars := List Char

/-! Python string primitives. -/

/-- Python `str.isspace` for the ASCII whitespace characters. -/
def pyIsSpace (c : Char) : Bool :=
  c = ' ' || c = '\t' || c = '\n' || c = (Char.ofNat 11) || c = (Char.ofNat 12) || c = '\r'

/-- Python `str.lstrip()`. -/
def pyLStrip (s : Chars) : Chars := s.dropWhile pyIsSpace

/-- Python `str.rstrip()`. -/
def pyRStrip (s : Chars) : Chars := (s.reverse.dropWhile pyIsSpace).reverse

/-- Python `str.strip()`. -/
def pyStrip (s : Chars) : Chars := pyRStrip (pyLStrip s)

/-- Python `str.strip(ch)` for a single stripped character. -/
def pyStripChar (ch : Char) (s : Chars) : Chars :=
  ((s.dropWhile (· = ch)).reverse.dropWhile (· = ch)).reverse

/-- Helper for Python `str.replace`: the fuel starts at the string length,
which bounds the number of steps because every step consumes at least one
character of `s`. -/
def pyReplaceAux (old new : Chars) : Nat → Chars → Chars
  | 0, s => s
  | _ + 1, [] => []
  | fuel + 1, c :: s =>
    if old ≠ [] ∧ old.isPrefixOf (c :: s) then
      new ++ pyReplaceAux old new fuel (List.drop (old.length - 1) s)
    else
      c :: pyReplaceAux old new fuel s

/-- Python `str.replace(old, new)`: non-overlapping, left to right. -/
def pyReplace (s old new : Chars) : Chars := pyReplaceAux old new s.length s

/-- Helper for Python `str.find`: first index `≥ i` at which `sub` occurs. -/
def pyFindAux (sub : Chars) : Chars → Nat → Int
  | [], i => if sub.isPrefixOf ([] : Chars) then (i : Int) else -1
  | c :: t, i => if sub.isPrefixOf (c :: t) then (i : Int) else pyFindAux sub t (i + 1)

/-- Python `str.find(sub)`: index of the first occurrence, `-1` if absent. -/
def pyFind (s sub : Chars) : Int := pyFindAux sub s 0

/-- Python `str.find(sub, start)` for a nonnegative `start`. -/
def pyFindFrom (s sub : Chars) (start : Nat) : Int :=
  let r := pyFind (s.drop start) sub
  if r < 0 then -1 else r + (start : Int)

/-- Python slice `s[i:j]` (step 1, possibly negative endpoints). -/
def pySlice (s : Chars) (i j : Int) : Chars :=
  let n : Int := s.length
  let lo := if i < 0 then max 0 (n + i) else min i n
  let hi := if j < 0 then max 0 (n + j) else min j n
  if lo < hi then (s.drop lo.toNat).take (hi - lo).toNat else []

/-! Embedding of `difflib.SequenceMatcher(None, a, b)`.

Faithful embedding of CPython `difflib` for `isjunk = None` and the default
`autojunk = True`: `__chain_b` (index map plus popular-element purge),
`find_longest_match` (including the two non-junk extension loops; the junk
set is empty when `isjunk` is `None`), the recursive block decomposition of
`get_matching_blocks`, and `ratio`. -/

/-- The `b2j` map of `SequenceMatcher`: character to ascending index list. -/
abbrev B2J := List (Char × List Nat)

/-- One step of building `b2j`: `b2j.setdefault(elt, []).append(i)`. -/
def b2jInsert : B2J → Char → Nat → B2J
  | [], c, i => [(c, [i])]
  | (d, js) :: rest, c, i =>
    if d = c then (d, js ++ [i]) :: rest else (d, js) :: b2jInsert rest c i

/-- Build `b2j` from the second sequence `b`. -/
def b2jBuild (b : Chars) : B2J :=
  b.enum.foldl (fun m p => b2jInsert m p.2 p.1) []

/-- The `autojunk` purge: for `len(b) >= 200`, elements occurring more than
`len(b) // 100 + 1` times are deleted from `b2j`. -/
def b2jPurge (m : B2J) (n : Nat) : B2J :=
  if 200 ≤ n then
    let ntest := n / 100 + 1
    m.filter (fun p => p.2.length ≤ ntest)
  else m

/-- Lookup `b2j.get(c, [])`. -/
def b2jGet : B2J → Char → List Nat
  | [], _ => []
  | (d, js) :: rest, c => if d = c then js else b2jGet rest c

/-- Lookup `j2len.get(j, 0)` on the association-list representation of `j2len`. -/
def alGet : List (Nat × Nat) → Nat → Nat
  | [], _ => 0
  | (j, v) :: rest, j0 => if j = j0 then v else alGet rest j0

/-- Inner loop of `find_longest_match` over `b2j[a[i]]` (with the `continue`
on `j < blo` and the `break` on `j >= bhi`), building the new `j2len` row and
updating the best block. -/
def innerLoop (j2len : List (Nat × Nat)) (blo bhi i : Nat) :
    List Nat → List (Nat × Nat) → Nat × Nat × Nat → List (Nat × Nat) × (Nat × Nat × Nat)
  | [], acc, best => (acc, best)
  | j :: js, acc, best =>
    if j < blo then innerLoop j2len blo bhi i js acc best
    else if bhi ≤ j then (acc, best)
    else
      let k := (if j = 0 then 0 else alGet j2len (j - 1)) + 1
      let best2 := if best.2.2 < k then (i + 1 - k, j + 1 - k, k) else best
      innerLoop j2len blo bhi i js ((j, k) :: acc) best2

/-- Outer loop of `find_longest_match` over `i` in `range(alo, ahi)`. -/
def outerLoop (a : Chars) (b2j : B2J) (blo bhi : Nat) :
    List Nat → List (Nat × Nat) → Nat × Nat × Nat → Nat × Nat × Nat
  | [], _, best => best
  | i :: is, j2len, best =>
    match innerLoop j2len blo bhi i (b2jGet b2j (a.getD i ' ')) [] best with
    | (acc, best2) => outerLoop a b2j blo bhi is acc best2

/-- The first `while` of `find_longest_match`: extend the best block to the
left over equal characters (the junk set is empty for `isjunk = None`).
The fuel argument starts at `besti`, which bounds the iteration count. -/
def extendLeft (a b : Chars) (alo blo : Nat) :
    Nat → Nat → Nat → Nat → Nat × Nat × Nat
  | 0, bi, bj, bs => (bi, bj, bs)
  | fuel + 1, bi, bj, bs =>
    if alo < bi ∧ blo < bj ∧ a.getD (bi - 1) ' ' = b.getD (bj - 1) ' ' then
      extendLeft a b alo blo fuel (bi - 1) (bj - 1) (bs + 1)
    else (bi, bj, bs)

/-- The second `while` of `find_longest_match`: extend to the right over
equal characters.  The fuel argument starts at `ahi`, which bounds the
iteration count because the loop requires `besti + bestsize < ahi`. -/
def extendRight (a b : Chars) (ahi bhi bi bj : Nat) : Nat → Nat → Nat
  | 0, bs => bs
  | fuel + 1, bs =>
    if bi + bs < ahi ∧ bj + bs < bhi ∧ a.getD (bi + bs) ' ' = b.getD (bj + bs) ' ' then
      extendRight a b ahi bhi bi bj fuel (bs + 1)
    else bs

/-- Python `find_longest_match(alo, ahi, blo, bhi)`, returning the triple of besti, bestj and bestsize. -/
def findLongestMatch (a b : Chars) (b2j : B2J) (alo ahi blo bhi : Nat) :
    Nat × Nat × Nat :=
  match outerLoop a b2j blo bhi (List.range' alo (ahi - alo)) [] (alo, blo, 0) with
  | (bi, bj, bs) =>
    match extendLeft a b alo blo bi bi bj bs with
    | (bi2, bj2, bs2) => (bi2, bj2, extendRight a b ahi bhi bi2 bj2 ahi bs2)

/-- Total size of the matching blocks of `get_matching_blocks`, via the same
recursive decomposition as `difflib` (recurse left of the block when
`alo < i` and `blo < j`, right when `i + k < ahi` and `j + k < bhi`).
Each level strictly shrinks `(ahi - alo) + (bhi - blo)`, so the fuel
`a.length + b.length + 1` supplied by `similarityChars` never runs out. -/
def matchesTotal (a b : Chars) (b2j : B2J) : Nat → Nat → Nat → Nat → Nat → Nat
  | 0, _, _, _, _ => 0
  | fuel + 1, alo, ahi, blo, bhi =>
    match findLongestMatch a b b2j alo ahi blo bhi with
    | (i, j, k) =>
      if k = 0 then 0
      else
        k + (if alo < i ∧ blo < j then
              matchesTotal a b b2j fuel alo i blo j else 0)
          + (if i + k < ahi ∧ j + k < bhi then
              matchesTotal a b b2j fuel (i + k) ahi (j + k) bhi else 0)

/-- Total number of matching characters found by
`SequenceMatcher(None, a, b)` on character lists. -/
def smMatches (a b : Chars) : Nat :=
  matchesTotal a b (b2jPurge (b2jBuild b) b.length)
    (a.length + b.length + 1) 0 a.length 0 b.length

/-- Python `SequenceMatcher(None, a, b).ratio()` on character lists:
`2 * matches / (len(a) + len(b))`, and `1.0` when both are empty. -/
def similarityChars (a b : Chars) : ℚ :=
  let total := a.length + b.length
  if total = 0 then 1 else (2 * smMatches a b : ℚ) / (total : ℚ)

/-- The similarity metric used by the Matcher:
`SequenceMatcher(None, a, b).ratio()`. -/
def similarity (a b : String) : ℚ := similarityChars a.data b.data

/-! The Similarity Matcher, `match_descriptions`. -/

/-- The Matcher `match_descriptions(json_dict, excel_dict, threshold)`: the nested loop
over both dictionaries, adding `(json_file, excel_file, json_desc,
excel_desc)` to the result set when
`SequenceMatcher(None, str(json_desc), str(excel_desc)).ratio() >= threshold`.
Dictionaries are modelled as association lists and the Python `set` as a
duplicate-free list. -/
def match_descriptions (json_dict excel_dict : List (String × String))
    (threshold : ℚ) : List (String × String × String × String) :=
  ((json_dict.map (fun jp => excel_dict.filterMap (fun ep =>
      if threshold ≤ similarity jp.2 ep.2 then some (jp.1, ep.1, jp.2, ep.2)
      else none))).flatten).dedup

/-! The Text Normalizer and Extractor. -/

/-- A value read from the designated spreadsheet cell
(`excel_df["Unnamed: 7"].iloc[5]`).  A numeric cell carries the text that
Python `str()` renders it as. -/
inductive CellValue where
  | str (s : String)
  | num (printed : String)
deriving DecidableEq

/-- Python `str(x)` on a cell value. -/
def pyStrOfCell : CellValue → String
  | .str s => s
  | .num printed => printed

/-- The test `isinstance(action_name, str)` where `action_name = str(...)`: the
argument is always a `str`, so this test is always true. -/
def isinstanceStr (_ : String) : Bool := true

/-- The spreadsheet description cleaning of lines 136–137:
slice the cell text from one past the result of find on the two-character
marker (closing parenthesis, space), then strip, remove every slash, and
collapse double spaces once. -/
def excelClean (a : Chars) : Chars :=
  let start : Int := pyFind a (") ".data) + 1
  pyReplace (pyReplace (pyStrip (a.drop start.toNat)) "/".data "".data)
    "  ".data " ".data

/-- The body of the `for excel_file in all_briefings` loop (lines 134–139):
coerce the designated cell with `str`, test `isinstance(..., str)`, and
either clean the text or record the `"Invalid description"` sentinel. -/
def excelDescriptionOfCell (cell : CellValue) : String :=
  let action_name := pyStrOfCell cell
  if isinstanceStr action_name then
    String.mk (excelClean action_name.data)
  else "Invalid description"

/-- Reading the designated cell itself: when the designated column or row is
absent from the spreadsheet, `excel_df["Unnamed: 7"].iloc[5]` raises
(`KeyError`/`IndexError`) rather than producing a value. -/
def excelDescriptionOfRecord : Option CellValue → Except String String
  | none => Except.error "KeyError"
  | some cell => Except.ok (excelDescriptionOfCell cell)

/-- The structured-record description extraction of lines 168–170: start is
the result of find on the marker (closing parenthesis, space) plus 2, stop
is the result of find on the closing marker (double quote, comma) from
start, minus 5, and the description is the slice between them, stripped of
whitespace and then of double quotes. -/
def jsonDescriptionOfFile (json_string : Chars) : Chars :=
  let start : Int := pyFind json_string (") ".data) + 2
  let stop : Int := pyFindFrom json_string ("\",".data) start.toNat - 5
  pyStripChar '"' (pyStrip (pySlice json_string start stop))

/-! Conversations and the Few-Shot Prompt Builder. -/

/-- The `GptRoles` enum. -/
inductive GptRoles where
  | user
  | assistant
  | system
deriving DecidableEq

/-- One role-tagged message turn: a role together with one text segment. -/
structure Message where
  role : GptRoles
  text : String
deriving DecidableEq

/-- Python `transform_string_to_prompt(text, role)`: a one-turn conversation. -/
def transform_string_to_prompt (text : String) (role : GptRoles) : List Message :=
  [⟨role, text⟩]

/-- The assembly of `claude_prompt` (lines 250–260): the rules block as a
user turn, then the three worked example pairs in order, each a user turn
(the formatted example request) followed by an assistant turn (the expected
response).  The seven strings are the already-formatted texts. -/
def claude_prompt (rules ex1 resp1 ex2 resp2 ex3 resp3 : String) : List Message :=
  transform_string_to_prompt rules GptRoles.user
    ++ transform_string_to_prompt ex1 GptRoles.user
    ++ transform_string_to_prompt resp1 GptRoles.assistant
    ++ transform_string_to_prompt ex2 GptRoles.user
    ++ transform_string_to_prompt resp2 GptRoles.assistant
    ++ transform_string_to_prompt ex3 GptRoles.user
    ++ transform_string_to_prompt resp3 GptRoles.assistant

/-! The Requesters and the driver loop.

The Bedrock `converse` call is modelled as an oracle from the sent
conversation to either the response text or a service error; the driver
loop numbers its calls so that one oracle describes the whole run. -/

/-- The apostrophe character, used in the fatal error line. -/
def apos : String := String.mk [Char.ofNat 39]

/-- The model identifier `anthropic.claude-3-5-sonnet-20240620-v1:0`. -/
def model_id : String := "anthropic.claude-3-5-sonnet-20240620-v1:0"

/-- The line printed by both `except` blocks before the exit call, reading
ERROR colon Cant invoke model_id dot Reason colon e, with an apostrophe in
the word Cant and one on each side of the model identifier. -/
def errorLine (e : String) : String :=
  "ERROR: Can" ++ apos ++ "t invoke " ++ apos ++ model_id ++ apos
    ++ ". Reason: " ++ e

/-- Python `str.rstrip()` on `String`. -/
def rstripStr (s : String) : String := String.mk (pyRStrip s.data)

/-- The Conversion Requester `process_excel_content(excel_content)` given the outcome of its single
`converse` call: build the one-turn conversation, send it, return the
right-stripped response text, or print the error line and `exit(1)`
(modelled as `Except.error`).  `user_message` is the f-string template of
lines 70–82. -/
def process_excel_content (svc : List Message → Except String String)
    (user_message : String → String) (excel_content : String) :
    Except String String :=
  let conversation := [Message.mk GptRoles.user (user_message excel_content)]
  match svc conversation with
  | Except.ok t => Except.ok (rstripStr t)
  | Except.error e => Except.error (errorLine e)

/-- The Comparison Requester `compare_json_excel(clean_briefing, json_path, prompt, new_request)`:
`prompt.extend(...)` mutates the shared list of the caller before the `converse`
call, so the model returns the extended list alongside the response.  On a
service error the error line is printed and the process exits. -/
def compare_json_excel (svc : List Message → Except String String)
    (clean_briefing json_content : String) (prompt : List Message)
    (new_request : String → String → String) :
    Except String (String × List Message) :=
  let prompt2 := prompt ++
    [Message.mk GptRoles.user (new_request clean_briefing json_content)]
  match svc prompt2 with
  | Except.ok t => Except.ok (rstripStr t, prompt2)
  | Except.error e => Except.error (errorLine e)

/-- Observable outcome of the `for match in matches` loop. -/
structure RunResult where
  reports : List String
  sentConvs : List (List Message)
  promptFinal : List Message
  fatal : Option String
  calls : Nat
deriving DecidableEq

/-- The `for match in matches` driver loop (lines 306–313): per matched
pair, one `process_excel_content` call then one `compare_json_excel` call
against the shared `claude_prompt` list.  `svc n` is the outcome of the
`n`-th `converse` call of the loop; `pairs` carries, per matched pair, the
rendered spreadsheet text and the structured-record file content.  The
result records the printed reports, each conversation actually sent for
comparison, the final state of the shared prompt list, the fatal error
line if the run exited, and how many service calls were made. -/
def runMatches (svc : Nat → List Message → Except String String)
    (user_message : String → String)
    (new_request : String → String → String) :
    List Message → Nat → List (String × String) → RunResult
  | prompt, n, [] => ⟨[], [], prompt, none, n⟩
  | prompt, n, (excel_str, json_content) :: rest =>
    match process_excel_content (svc n) user_message excel_str with
    | Except.error e => ⟨[], [], prompt, some e, n + 1⟩
    | Except.ok clean_briefing =>
      match compare_json_excel (svc (n + 1)) clean_briefing json_content
          prompt new_request with
      | Except.error e =>
        ⟨[], [prompt ++ [Message.mk GptRoles.user
            (new_request clean_briefing json_content)]],
          prompt ++ [Message.mk GptRoles.user
            (new_request clean_briefing json_content)],
          some e, n + 2⟩
      | Except.ok (diff, prompt2) =>
        let r := runMatches svc user_message new_request prompt2 (n + 2) rest
        ⟨diff :: r.reports, prompt2 :: r.sentConvs, r.promptFinal, r.fatal, r.calls⟩

/-! Characterization of the Matcher output. -/

/-- Rewriting lemma: evaluate `similarity` once the matching-character
count and the two lengths are known. -/
theorem similarity_eval {a b : String} {m la lb : Nat}
    (hm : smMatches a.data b.data = m)
    (ha : a.data.length = la) (hb : b.data.length = lb) :
    similarity a b =
      if la + lb = 0 then 1 else (2 * m : ℚ) / ((la + lb : Nat) : ℚ) := by
  subst hm ha hb; rfl

theorem mem_match_descriptions {jd ed : List (String × String)} {th : ℚ}
    {t : String × String × String × String} :
    t ∈ match_descriptions jd ed th ↔
      ∃ jp, jp ∈ jd ∧ ∃ ep, ep ∈ ed ∧ th ≤ similarity jp.2 ep.2 ∧
        t = (jp.1, ep.1, jp.2, ep.2) := by
  rw [match_descriptions, List.mem_dedup, List.mem_flatten]
  constructor
  · rintro ⟨l, hl, htl⟩
    rcases List.mem_map.mp hl with ⟨jp, hjp, rfl⟩
    rcases List.mem_filterMap.mp htl with ⟨ep, hep, hg⟩
    rw [Option.ite_none_right_eq_some, Option.some_inj] at hg
    exact ⟨jp, hjp, ep, hep, hg.1, hg.2.symm⟩
  · rintro ⟨jp, hjp, ep, hep, hth, rfl⟩
    refine ⟨_, List.mem_map.mpr ⟨jp, hjp, rfl⟩, List.mem_filterMap.mpr ⟨ep, hep, ?_⟩⟩
    rw [Option.ite_none_right_eq_some, Option.some_inj]
    exact ⟨hth, rfl⟩

/-- C1: for every pair of input mappings and every threshold, every 4-tuple
in the set returned by `match_descriptions` has
`similarity(structured description, spreadsheet description) ≥ threshold`;
equivalently, no pair of descriptions scoring below the threshold
contributes a tuple to the output set. -/
theorem match_descriptions_threshold_gating
    (jd ed : List (String × String)) (th : ℚ)
    (t : String × String × String × String)
    (ht : t ∈ match_descriptions jd ed th) :
    th ≤ similarity t.2.2.1 t.2.2.2 := by
  rcases mem_match_descriptions.mp ht with ⟨jp, _, ep, _, hth, rfl⟩
  exact hth

/-- Helper for concrete witnesses: the sentinel (and any string) scores
`1` against itself, which is why C2 fails; used only at concrete inputs. -/
theorem similarity_abc_self : (93 / 100 : ℚ) ≤ similarity "abc" "abc" := by
  rw [similarity_eval (a := "abc") (b := "abc") (m := 3) rfl rfl rfl]; norm_num

/-- Witness for C1 at a concrete input. -/
theorem match_descriptions_threshold_gating_witness :
    ("j1", "e1", "abc", "abc") ∈
      match_descriptions [("j1", "abc")] [("e1", "abc")] (93 / 100) ∧
    (93 / 100 : ℚ) ≤ similarity "abc" "abc" :=
  ⟨mem_match_descriptions.mpr
      ⟨("j1", "abc"), by simp, ("e1", "abc"), by simp, similarity_abc_self, rfl⟩,
    match_descriptions_threshold_gating [("j1", "abc")] [("e1", "abc")]
      (93 / 100) ("j1", "e1", "abc", "abc")
      (mem_match_descriptions.mpr
        ⟨("j1", "abc"), by simp, ("e1", "abc"), by simp, similarity_abc_self, rfl⟩)⟩

/-- C8: the Matcher is a deterministic function of its inputs and its
output set does not depend on the iteration order of the two input
mappings: permuting either dictionary leaves membership in the output set
unchanged. -/
theorem match_descriptions_order_independent
    (jd jd2 ed ed2 : List (String × String)) (th : ℚ)
    (hj : jd.Perm jd2) (he : ed.Perm ed2)
    (t : String × String × String × String) :
    t ∈ match_descriptions jd ed th ↔ t ∈ match_descriptions jd2 ed2 th := by
  simp only [mem_match_descriptions]
  constructor
  · rintro ⟨jp, hjp, ep, hep, hth, rfl⟩
    exact ⟨jp, hj.mem_iff.mp hjp, ep, he.mem_iff.mp hep, hth, rfl⟩
  · rintro ⟨jp, hjp, ep, hep, hth, rfl⟩
    exact ⟨jp, hj.mem_iff.mpr hjp, ep, he.mem_iff.mpr hep, hth, rfl⟩

/-- Witness for C8 at a concrete input. -/
theorem match_descriptions_order_independent_witness :
    ([("j1", "abc"), ("j2", "xyz")] : List (String × String)).Perm
        [("j2", "xyz"), ("j1", "abc")] ∧
    ([("e1", "abc")] : List (String × String)).Perm [("e1", "abc")] ∧
    (("j1", "e1", "abc", "abc") ∈
        match_descriptions [("j1", "abc"), ("j2", "xyz")] [("e1", "abc")]
          (93 / 100) ↔
      ("j1", "e1", "abc", "abc") ∈
        match_descriptions [("j2", "xyz"), ("j1", "abc")] [("e1", "abc")]
          (93 / 100)) :=
  ⟨List.Perm.swap _ _ _, List.Perm.refl _,
    match_descriptions_order_independent _ _ _ _ (93 / 100)
      (List.Perm.swap _ _ _) (List.Perm.refl _) ("j1", "e1", "abc", "abc")⟩

/-- C2 fails on the code: the sentinel is not excluded from matching.  Two
records that both carry the `"Invalid description"` sentinel score
`similarity = 1`, so at the default threshold `0.93 ≤ 1.0` the Matcher
emits the sentinel-sentinel pair. -/
theorem sentinel_pair_is_matched :
    similarity "Invalid description" "Invalid description" = 1 ∧
    ("j", "e", "Invalid description", "Invalid description") ∈
      match_descriptions [("j", "Invalid description")]
        [("e", "Invalid description")] (93 / 100) := by
  have h : similarity "Invalid description" "Invalid description" = 1 := by
    rw [similarity_eval (a := "Invalid description") (b := "Invalid description")
      (m := 19) rfl rfl rfl]
    norm_num
  exact ⟨h,
    mem_match_descriptions.mpr
      ⟨("j", "Invalid description"), by simp, ("e", "Invalid description"),
        by simp, by rw [h]; norm_num, rfl⟩⟩

/-- C4 fails on the code: `action_name = str(...)` makes the
`isinstance(action_name, str)` test vacuously true, so a numeric designated
cell is stringified and cleaned instead of yielding the sentinel, and an
absent designated cell raises instead of yielding the sentinel. -/
theorem numeric_cell_not_sentinel :
    excelDescriptionOfCell (CellValue.num "123") = "123" ∧
    excelDescriptionOfCell (CellValue.num "123") ≠ "Invalid description" ∧
    excelDescriptionOfRecord none = Except.error "KeyError" := by
  refine ⟨by decide, by decide, rfl⟩

/-- C5: for any three worked examples, the assembled few-shot conversation
has exactly 7 turns whose role sequence is
user (rules), user, assistant, user, assistant, user, assistant. -/
theorem claude_prompt_shape (rules ex1 resp1 ex2 resp2 ex3 resp3 : String) :
    (claude_prompt rules ex1 resp1 ex2 resp2 ex3 resp3).map Message.role =
      [GptRoles.user, GptRoles.user, GptRoles.assistant, GptRoles.user,
        GptRoles.assistant, GptRoles.user, GptRoles.assistant] ∧
    (claude_prompt rules ex1 resp1 ex2 resp2 ex3 resp3).length = 7 :=
  ⟨rfl, rfl⟩

/-- C6 fails on the code: `compare_json_excel` extends the shared
`claude_prompt` list in place, so only the first matched pair gets a
conversation of 8 turns; the second pair gets 9 turns (its conversation
still contains the request of the first pair), and after one pair the shared conversation has
grown from 7 to 8 turns rather than staying unchanged. -/
theorem compare_json_excel_mutates_shared_prompt :
    ((runMatches (fun _ _ => Except.ok "x") (fun s => s) (fun a b => a ++ b)
        (claude_prompt "r" "e1" "a1" "e2" "a2" "e3" "a3") 0
        [("x1", "y1"), ("x2", "y2")]).sentConvs.map List.length = [8, 9]) ∧
    ¬ ((runMatches (fun _ _ => Except.ok "x") (fun s => s) (fun a b => a ++ b)
        (claude_prompt "r" "e1" "a1" "e2" "a2" "e3" "a3") 0
        [("x1", "y1"), ("x2", "y2")]).sentConvs.map List.length = [8, 8]) ∧
    (runMatches (fun _ _ => Except.ok "x") (fun s => s) (fun a b => a ++ b)
        (claude_prompt "r" "e1" "a1" "e2" "a2" "e3" "a3") 0
        [("x1", "y1"), ("x2", "y2")]).promptFinal.length = 9 ∧
    (claude_prompt "r" "e1" "a1" "e2" "a2" "e3" "a3").length = 7 := by
  refine ⟨rfl, by decide, rfl, rfl⟩

/-- C6 amended: when every service call succeeds, the conversation sent for
the `i`-th matched pair (0-based) has `prompt.length + i + 1` turns — 8
turns for the first pair when the shared few-shot prompt has 7 turns — and
always ends in a user turn; the shared prompt list itself grows by one
turn per processed pair instead of staying unchanged. -/
theorem runMatches_prompt_growth (svc : Nat → List Message → Except String String)
    (um : String → String) (nr : String → String → String)
    (hsvc : ∀ n c, ∃ t, svc n c = Except.ok t) :
    ∀ (pairs : List (String × String)) (prompt : List Message) (n : Nat),
      (runMatches svc um nr prompt n pairs).sentConvs.map List.length =
        (List.range pairs.length).map (fun i => prompt.length + i + 1) ∧
      (∀ c ∈ (runMatches svc um nr prompt n pairs).sentConvs,
        c.getLast?.map Message.role = some GptRoles.user) ∧
      (runMatches svc um nr prompt n pairs).promptFinal.length =
        prompt.length + pairs.length := by
  intro pairs
  induction pairs with
  | nil => intro prompt n; simp [runMatches]
  | cons p rest ih =>
    rcases p with ⟨a, b⟩
    intro prompt n
    obtain ⟨t1, ht1⟩ := hsvc n [Message.mk GptRoles.user (um a)]
    obtain ⟨t2, ht2⟩ := hsvc (n + 1)
      (prompt ++ [Message.mk GptRoles.user (nr (rstripStr t1) b)])
    have hrw : runMatches svc um nr prompt n ((a, b) :: rest) =
        ⟨rstripStr t2 ::
            (runMatches svc um nr
              (prompt ++ [Message.mk GptRoles.user (nr (rstripStr t1) b)])
              (n + 2) rest).reports,
          (prompt ++ [Message.mk GptRoles.user (nr (rstripStr t1) b)]) ::
            (runMatches svc um nr
              (prompt ++ [Message.mk GptRoles.user (nr (rstripStr t1) b)])
              (n + 2) rest).sentConvs,
          (runMatches svc um nr
            (prompt ++ [Message.mk GptRoles.user (nr (rstripStr t1) b)])
            (n + 2) rest).promptFinal,
          (runMatches svc um nr
            (prompt ++ [Message.mk GptRoles.user (nr (rstripStr t1) b)])
            (n + 2) rest).fatal,
          (runMatches svc um nr
            (prompt ++ [Message.mk GptRoles.user (nr (rstripStr t1) b)])
            (n + 2) rest).calls⟩ := by
      simp only [runMatches, process_excel_content, compare_json_excel, ht1, ht2]
    obtain ⟨ih1, ih2, ih3⟩ :=
      ih (prompt ++ [Message.mk GptRoles.user (nr (rstripStr t1) b)]) (n + 2)
    refine ⟨?_, ?_, ?_⟩
    · rw [hrw]
      simp only [List.map_cons, ih1, List.length_cons, List.range_succ_eq_map,
        List.map_map, List.length_append, List.length_cons, List.length_nil]
      refine congrArg₂ _ (by omega) (List.map_congr_left ?_)
      intro i _
      simp only [Function.comp_apply]
      omega
    · rw [hrw]
      intro c hc
      rcases List.mem_cons.mp hc with rfl | hc2
      · rw [List.getLast?_concat]; rfl
      · exact ih2 c hc2
    · rw [hrw]
      simp only [ih3, List.length_append, List.length_cons, List.length_nil]
      omega

/-- Witness for the amended C6 at a concrete input: one matched pair on top
of a 7-turn few-shot prompt gives one sent conversation of 8 turns, ending
in a user turn, and the shared prompt ends with 8 turns. -/
theorem runMatches_prompt_growth_witness :
    ((runMatches (fun _ _ => Except.ok "x") (fun s => s) (fun a b => a ++ b)
        (claude_prompt "r" "e1" "a1" "e2" "a2" "e3" "a3") 0
        [("u", "v")]).sentConvs.map List.length = [8]) ∧
    (runMatches (fun _ _ => Except.ok "x") (fun s => s) (fun a b => a ++ b)
        (claude_prompt "r" "e1" "a1" "e2" "a2" "e3" "a3") 0
        [("u", "v")]).promptFinal.length = 8 := by
  have h := runMatches_prompt_growth (fun _ _ => Except.ok "x") (fun s => s)
    (fun a b => a ++ b) (fun _ _ => ⟨"x", rfl⟩) [("u", "v")]
    (claude_prompt "r" "e1" "a1" "e2" "a2" "e3" "a3") 0
  refine ⟨by simpa using h.1, by simpa using h.2.2⟩

/-- C9: a spreadsheet description cell whose text does not contain the
delimiter `") "` is extracted whole: `find` returns `-1`, so the slice
starts at position 0 and the description is the entire cell text, stripped
of whitespace, with `"/"` removed and one pass of double-space collapsing —
not the sentinel and not an error. -/
theorem excel_extraction_no_delimiter (s : String)
    (h : pyFind s.data (") ".data) = -1) :
    excelDescriptionOfCell (CellValue.str s) =
      String.mk (pyReplace (pyReplace (pyStrip s.data) "/".data "".data)
        "  ".data " ".data) := by
  simp only [excelDescriptionOfCell, isinstanceStr, pyStrOfCell, excelClean, h,
    if_true]
  norm_num

/-- Witness for C9 at a concrete input. -/
theorem excel_extraction_no_delimiter_witness :
    pyFind "  hello /wor  ld".data (") ".data) = -1 ∧
    excelDescriptionOfCell (CellValue.str "  hello /wor  ld") =
      String.mk (pyReplace (pyReplace (pyStrip "  hello /wor  ld".data)
        "/".data "".data) "  ".data " ".data) ∧
    excelDescriptionOfCell (CellValue.str "  hello /wor  ld") = "hello wor ld" :=
  ⟨by decide, excel_extraction_no_delimiter _ (by decide), by decide⟩

/-- Helper for C7: the loop starting at call index `n` halts at the first
failing call. -/
theorem runMatches_halts_aux (svc : Nat → List Message → Except String String)
    (um : String → String) (nr : String → String → String) :
    ∀ (pairs : List (String × String)) (prompt : List Message) (n k : Nat)
      (e : String),
      k < 2 * pairs.length →
      (∀ c, svc (n + k) c = Except.error e) →
      (∀ i, i < k → ∀ c, ∃ t, svc (n + i) c = Except.ok t) →
      (runMatches svc um nr prompt n pairs).fatal = some (errorLine e) ∧
      (runMatches svc um nr prompt n pairs).calls = n + k + 1 ∧
      (runMatches svc um nr prompt n pairs).reports.length = k / 2 := by
  intro pairs
  induction pairs with
  | nil =>
    intro prompt n k e hk
    simp only [List.length_nil] at hk
    omega
  | cons p rest ih =>
    rcases p with ⟨a, b⟩
    intro prompt n k e hk herr hok
    match k with
    | 0 =>
      have h1 : svc n [Message.mk GptRoles.user (um a)] = Except.error e := by
        simpa using herr [Message.mk GptRoles.user (um a)]
      simp [runMatches, process_excel_content, h1]
    | 1 =>
      obtain ⟨t1, ht1⟩ := hok 0 (by omega) [Message.mk GptRoles.user (um a)]
      simp only [Nat.add_zero] at ht1
      have h2 : svc (n + 1)
          (prompt ++ [Message.mk GptRoles.user (nr (rstripStr t1) b)]) =
            Except.error e :=
        herr _
      simp [runMatches, process_excel_content, compare_json_excel, ht1, h2]
    | k2 + 2 =>
      obtain ⟨t1, ht1⟩ := hok 0 (by omega) [Message.mk GptRoles.user (um a)]
      simp only [Nat.add_zero] at ht1
      obtain ⟨t2, ht2⟩ := hok 1 (by omega)
        (prompt ++ [Message.mk GptRoles.user (nr (rstripStr t1) b)])
      have hrec := ih
        (prompt ++ [Message.mk GptRoles.user (nr (rstripStr t1) b)])
        (n + 2) k2 e
        (by simp only [List.length_cons] at hk; omega)
        (by intro c; have h := herr c; have h3 : n + 2 + k2 = n + (k2 + 2) := by omega
            rw [h3]; exact h)
        (by intro i hi c
            have h := hok (i + 2) (by omega) c
            have h3 : n + 2 + i = n + (i + 2) := by omega
            rw [h3]; exact h)
      have hrw : runMatches svc um nr prompt n ((a, b) :: rest) =
          ⟨rstripStr t2 ::
              (runMatches svc um nr
                (prompt ++ [Message.mk GptRoles.user (nr (rstripStr t1) b)])
                (n + 2) rest).reports,
            (prompt ++ [Message.mk GptRoles.user (nr (rstripStr t1) b)]) ::
              (runMatches svc um nr
                (prompt ++ [Message.mk GptRoles.user (nr (rstripStr t1) b)])
                (n + 2) rest).sentConvs,
            (runMatches svc um nr
              (prompt ++ [Message.mk GptRoles.user (nr (rstripStr t1) b)])
              (n + 2) rest).promptFinal,
            (runMatches svc um nr
              (prompt ++ [Message.mk GptRoles.user (nr (rstripStr t1) b)])
              (n + 2) rest).fatal,
            (runMatches svc um nr
              (prompt ++ [Message.mk GptRoles.user (nr (rstripStr t1) b)])
              (n + 2) rest).calls⟩ := by
        simp only [runMatches, process_excel_content, compare_json_excel, ht1, ht2]
      rw [hrw]
      refine ⟨hrec.1, ?_, ?_⟩
      · simp only [hrec.2.1]; omega
      · simp only [List.length_cons, hrec.2.2]; omega

/-- C7: if the `k`-th completion-service call of the run raises while all
earlier calls succeed, the run prints the fatal error line naming the model
identifier and the underlying error, makes no further service call (no
retry: exactly `k + 1` calls happen), and processes no further matched
pairs (only the `k / 2` pairs completed before the failure are reported). -/
theorem service_failure_fatal (svc : Nat → List Message → Except String String)
    (um : String → String) (nr : String → String → String)
    (prompt : List Message) (pairs : List (String × String)) (k : Nat)
    (e : String)
    (hk : k < 2 * pairs.length)
    (herr : ∀ c, svc k c = Except.error e)
    (hok : ∀ i, i < k → ∀ c, ∃ t, svc i c = Except.ok t) :
    (runMatches svc um nr prompt 0 pairs).fatal = some (errorLine e) ∧
    (runMatches svc um nr prompt 0 pairs).calls = k + 1 ∧
    (runMatches svc um nr prompt 0 pairs).reports.length = k / 2 := by
  have h := runMatches_halts_aux svc um nr pairs prompt 0 k e hk
    (by simpa using herr) (by simpa using hok)
  simpa using h

/-- Witness for C7 at a concrete input: the second call (index 1) fails,
so the run halts after 2 calls with the fatal line and zero reports. -/
theorem service_failure_fatal_witness :
    (1 < 2 * ([("a1", "b1"), ("a2", "b2")] : List (String × String)).length) ∧
    (runMatches (fun n _ => if n = 1 then Except.error "boom" else Except.ok "ok")
        (fun s => s) (fun a b => a ++ b) [] 0
        [("a1", "b1"), ("a2", "b2")]).fatal = some (errorLine "boom") ∧
    (runMatches (fun n _ => if n = 1 then Except.error "boom" else Except.ok "ok")
        (fun s => s) (fun a b => a ++ b) [] 0
        [("a1", "b1"), ("a2", "b2")]).calls = 2 ∧
    (runMatches (fun n _ => if n = 1 then Except.error "boom" else Except.ok "ok")
        (fun s => s) (fun a b => a ++ b) [] 0
        [("a1", "b1"), ("a2", "b2")]).reports.length = 0 := by
  have h := service_failure_fatal
    (fun n _ => if n = 1 then Except.error "boom" else Except.ok "ok")
    (fun s => s) (fun a b => a ++ b) [] [("a1", "b1"), ("a2", "b2")] 1 "boom"
    (by decide) (fun c => rfl)
    (fun i hi c => ⟨"ok", by have h0 : i = 0 := by omega
                             subst h0; rfl⟩)
  exact ⟨by decide, h.1, h.2.1, h.2.2⟩

/-- A nonnegative `pyFindAux` result is a genuine occurrence at or after
the running index. -/
theorem pyFindAux_eq_ofNat (sub : Chars) :
    ∀ (s : Chars) (i p : Nat), pyFindAux sub s i = (p : Int) →
      i ≤ p ∧ sub.isPrefixOf (s.drop (p - i)) = true := by
  intro s
  induction s with
  | nil =>
    intro i p h
    unfold pyFindAux at h
    by_cases hp : sub.isPrefixOf ([] : Chars) = true
    · rw [if_pos hp] at h
      have hip : i = p := by exact_mod_cast h
      subst hip
      exact ⟨le_refl _, by simpa using hp⟩
    · rw [if_neg hp] at h
      exfalso; omega
  | cons c t ih =>
    intro i p h
    unfold pyFindAux at h
    by_cases hp : sub.isPrefixOf (c :: t) = true
    · rw [if_pos hp] at h
      have hip : i = p := by exact_mod_cast h
      subst hip
      exact ⟨le_refl _, by simpa using hp⟩
    · rw [if_neg hp] at h
      obtain ⟨h1, h2⟩ := ih (i + 1) p h
      refine ⟨by omega, ?_⟩
      have hsub : p - i = (p - (i + 1)) + 1 := by omega
      rw [hsub, List.drop_succ_cons]
      exact h2

/-- A nonnegative `pyFind` result for a nonempty needle is an occurrence
within the string. -/
theorem pyFind_found {s sub : Chars} {p : Nat} (hsub : sub ≠ [])
    (h : pyFind s sub = (p : Int)) :
    sub.isPrefixOf (s.drop p) = true ∧ p + sub.length ≤ s.length := by
  obtain ⟨-, hpre⟩ := pyFindAux_eq_ofNat sub s 0 p h
  rw [Nat.sub_zero] at hpre
  have hle : sub.length ≤ (s.drop p).length :=
    (List.isPrefixOf_iff_prefix.mp hpre).length_le
  have hlen : (s.drop p).length = s.length - p := List.length_drop _ _
  have hpos : 1 ≤ sub.length := List.length_pos.mpr hsub
  exact ⟨hpre, by omega⟩

/-- A nonnegative `pyFindFrom` result for a nonempty needle lies at or
after `start` and within the string. -/
theorem pyFindFrom_found {s sub : Chars} {start q : Nat} (hsub : sub ≠ [])
    (h : pyFindFrom s sub start = (q : Int)) :
    start ≤ q ∧ q + sub.length ≤ s.length := by
  simp only [pyFindFrom] at h
  by_cases hr : pyFind (s.drop start) sub < 0
  · rw [if_pos hr] at h; exfalso; omega
  · rw [if_neg hr] at h
    have hq : pyFind (s.drop start) sub = ((q - start : Nat) : Int) := by omega
    have hb := pyFind_found hsub hq
    have hlen : (s.drop start).length = s.length - start := List.length_drop _ _
    have hpos : 1 ≤ sub.length := List.length_pos.mpr hsub
    constructor
    · omega
    · omega

/-- C10: when the structured-record text contains the `") "` marker at
position `p` and the closing marker (double quote, comma) first occurs at position `q ≥ p + 7`
after the slice start, the extracted description is the substring from
`p + 2` up to `q - 5` — the last five characters of the raw field value
before the closing marker are omitted — then stripped of whitespace and of
double quotes. -/
theorem json_extraction_window (js : Chars) (p q : Nat)
    (hp : pyFind js (") ".data) = (p : Int))
    (hq : pyFindFrom js ("\",".data) (p + 2) = (q : Int))
    (hpq : p + 7 ≤ q) :
    jsonDescriptionOfFile js =
      pyStripChar '"' (pyStrip ((js.drop (p + 2)).take (q - 5 - (p + 2)))) := by
  have hlen2 : (") ".data).length = 2 := rfl
  have hlen2b : ("\",".data).length = 2 := rfl
  have hpb := pyFind_found (by decide) hp
  have hqb := pyFindFrom_found (by decide) hq
  rw [hlen2] at hpb
  rw [hlen2b] at hqb
  simp only [jsonDescriptionOfFile]
  rw [hp]
  have htn : ((p : Int) + 2).toNat = p + 2 := by omega
  rw [htn, hq]
  suffices hs : pySlice js ((p : Int) + 2) ((q : Int) - 5) =
      (js.drop (p + 2)).take (q - 5 - (p + 2)) by rw [hs]
  simp only [pySlice]
  have hi0 : ¬ ((p : Int) + 2 < 0) := by omega
  have hj0 : ¬ ((q : Int) - 5 < 0) := by omega
  rw [if_neg hi0, if_neg hj0]
  have hlo : min ((p : Int) + 2) (js.length : Int) = (p : Int) + 2 := by
    rw [min_eq_left]; omega
  have hhi : min ((q : Int) - 5) (js.length : Int) = (q : Int) - 5 := by
    rw [min_eq_left]; omega
  rw [hlo, hhi]
  by_cases hlt : (p : Int) + 2 < (q : Int) - 5
  · rw [if_pos hlt]
    have h1 : ((p : Int) + 2).toNat = p + 2 := by omega
    have h2 : ((q : Int) - 5 - ((p : Int) + 2)).toNat = q - 5 - (p + 2) := by omega
    rw [h1, h2]
  · rw [if_neg hlt]
    have h3 : q - 5 - (p + 2) = 0 := by omega
    rw [h3, List.take_zero]

/-- Closed form of the matching-character count on single-character
strings. -/
theorem smMatches_single (x y : Char) :
    smMatches [x] [y] = if x = y then 1 else 0 := by
  by_cases hxy : x = y
  · subst hxy
    simp [smMatches, matchesTotal, findLongestMatch, outerLoop, innerLoop, alGet,
      b2jBuild, b2jInsert, b2jGet, b2jPurge, extendLeft, extendRight,
      List.range', List.getD]
  · have hyx : ¬ y = x := fun hh => hxy hh.symm
    simp [smMatches, matchesTotal, findLongestMatch, outerLoop, innerLoop, alGet,
      b2jBuild, b2jInsert, b2jGet, b2jPurge, extendLeft, extendRight,
      List.range', List.getD, hxy, hyx]

/-- C3 amended: the similarity metric is symmetric on strings of length at
most one (where no greedy block choice arises); in general it is not
symmetric. -/
theorem similarity_symmetric_short (a b : String)
    (ha : a.length ≤ 1) (hb : b.length ≤ 1) :
    similarity a b = similarity b a := by
  obtain ⟨la⟩ := a
  obtain ⟨lb⟩ := b
  have ha2 : la.length ≤ 1 := ha
  have hb2 : lb.length ≤ 1 := hb
  rcases la with _ | ⟨x, la2⟩
  · rcases lb with _ | ⟨y, lb2⟩
    · rfl
    · rcases lb2 with _ | ⟨z, lb3⟩
      · show similarityChars [] [y] = similarityChars [y] []
        have h1 : smMatches [] [y] = 0 := rfl
        have h2 : smMatches [y] [] = 0 := rfl
        simp [similarityChars, h1, h2]
      · simp at hb2
  · rcases la2 with _ | ⟨x2, la3⟩
    · rcases lb with _ | ⟨y, lb2⟩
      · show similarityChars [x] [] = similarityChars [] [x]
        have h1 : smMatches [x] [] = 0 := rfl
        have h2 : smMatches [] [x] = 0 := rfl
        simp [similarityChars, h1, h2]
      · rcases lb2 with _ | ⟨z, lb3⟩
        · show similarityChars [x] [y] = similarityChars [y] [x]
          by_cases hxy : x = y
          · subst hxy; rfl
          · have hyx : ¬ y = x := fun hh => hxy hh.symm
            simp [similarityChars, smMatches_single, hxy, hyx]
        · simp at hb2
    · simp at ha2

/-- Witness for the amended C3 at a concrete input. -/
theorem similarity_symmetric_short_witness :
    ("a" : String).length ≤ 1 ∧ ("b" : String).length ≤ 1 ∧
    similarity "a" "b" = similarity "b" "a" :=
  ⟨by decide, by decide,
    similarity_symmetric_short "a" "b" (by decide) (by decide)⟩

/-- C3 fails on the code: the metric is not symmetric.
`SequenceMatcher` finds one matching character for `("aba", "bca")` but two
for `("bca", "aba")` — the greedy longest-block choice depends on the
argument order — so the ratios are `1/3` and `2/3`. -/
theorem similarity_not_symmetric :
    similarity "aba" "bca" = 1 / 3 ∧ similarity "bca" "aba" = 2 / 3 ∧
    similarity "aba" "bca" ≠ similarity "bca" "aba" := by
  have h1 : similarity "aba" "bca" = 1 / 3 := by
    rw [similarity_eval (a := "aba") (b := "bca") (m := 1) rfl rfl rfl]; norm_num
  have h2 : similarity "bca" "aba" = 2 / 3 := by
    rw [similarity_eval (a := "bca") (b := "aba") (m := 2) rfl rfl rfl]; norm_num
  refine ⟨h1, h2, ?_⟩
  rw [h1, h2]; norm_num

/-- Witness for C10 at a concrete input. -/
theorem json_extraction_window_witness :
    pyFind "xx) hello world\",zz".data (") ".data) = (2 : Int) ∧
    pyFindFrom "xx) hello world\",zz".data ("\",".data) 4 = (15 : Int) ∧
    jsonDescriptionOfFile "xx) hello world\",zz".data =
      pyStripChar '"' (pyStrip (("xx) hello world\",zz".data.drop 4).take 6)) ∧
    jsonDescriptionOfFile "xx) hello world\",zz".data = "hello".data :=
  ⟨by decide, by decide,
    json_extraction_window "xx) hello world\",zz".data 2 15 (by decide)
      (by decide) (by decide),
    by decide⟩

end CheckJson
